import Mathlib

set_option maxHeartbeats 1000000

/-!
Verification development for the material backend controller
(`src/controllers/main.py` with the models `material.material` and
`supplier.supplier`).  The controller's pure helpers (`json_response`,
`validate_payload`, `validate_selection_field`) are embedded directly; the
persistence layer (Odoo ORM) is embedded as an explicit store of material
records and supplier ids, with the repository's own `_check_buy_price`
constraint modelled as the transactional check performed by `create` and
`write`.
-/

/-- Python runtime values that can occur in a parsed JSON payload for the
fields of this API (strings, ints, floats, booleans, `None`).  Floats are
modelled as rationals. -/
inductive PyVal where
  | str (s : String)
  | int (n : Int)
  | float (q : ℚ)
  | bool (b : Bool)
  | none
deriving DecidableEq, Repr

/-- Python truthiness (`bool(v)`) for the values above. -/
def pyTruthy : PyVal → Bool
  | .str s => !(s = "")
  | .int n => !(n = 0)
  | .float q => !(q = 0)
  | .bool b => b
  | .none => false

/-- Numeric value of a Python number (`True == 1`, `False == 0`); junk value
`0` on non-numbers, which the handlers never compare (guarded by
`isinstance` / truthiness checks). -/
def pyToRat : PyVal → ℚ
  | .int n => (n : ℚ)
  | .float q => q
  | .bool b => if b then 1 else 0
  | _ => 0

/-- Whether a value is a Python number (int, float or bool). -/
def isNum : PyVal → Bool
  | .int _ => true
  | .float _ => true
  | .bool _ => true
  | _ => false

/-- The comparison `v < k` as used on `buy_price` values. -/
def pyLt (v : PyVal) (k : ℚ) : Bool := pyToRat v < k

/-- Rendering of a value inside an f-string (`str(v)`). -/
def pyStrOfVal : PyVal → String
  | .str s => s
  | .int n => toString n
  | .float q => toString q
  | .bool b => if b then "True" else "False"
  | .none => "None"

/-- The Python classes appearing in the controller's `type_specs`. -/
inductive PyType where
  | pstr
  | pint
  | pfloat
deriving DecidableEq, BEq, Repr

/-- `isinstance(v, tys)` where `tys` is a class or tuple of classes.  A
Python `bool` is an instance of `int`. -/
def pyIsInstance : PyVal → List PyType → Bool
  | .str _, tys => tys.contains .pstr
  | .int _, tys => tys.contains .pint
  | .float _, tys => tys.contains .pfloat
  | .bool _, tys => tys.contains .pint
  | .none, _ => false

/-- `str(cls)` for a single Python class. -/
def clsRepr : PyType → String
  | .pstr => "<class \x27str\x27>"
  | .pint => "<class \x27int\x27>"
  | .pfloat => "<class \x27float\x27>"

/-- `str(expected_type)` where `expected_type` is either a bare class or a
tuple of classes, as in `type_specs`. -/
def tysRepr : List PyType → String
  | [t] => clsRepr t
  | ts => "(" ++ String.intercalate ", " (ts.map clsRepr) ++ ")"

/-- A parsed JSON payload: an ordered mapping from field names to values. -/
abbrev Payload := List (String × PyVal)

/-- Dictionary lookup (`data.get(key)` / `data[key]`, with `key in data`
being `(getVal data key).isSome`). -/
def getVal {α : Type} : List (String × α) → String → Option α
  | [], _ => Option.none
  | (k, v) :: rest, key => if k = key then some v else getVal rest key

/-- Metadata of one ORM field as returned by `fields_get`: selection fields
carry their `(value, label)` pairs under the `selection` key. -/
structure FieldMeta where
  selection : Option (List (String × String))
deriving DecidableEq, Repr

/-- The slice of an Odoo model visible to the controller: its Python class
name and its fields with their metadata. -/
structure OdooModel where
  className : String
  fields : List (String × FieldMeta)
deriving DecidableEq, Repr

/-- `model.fields_get(names)`: metadata for each requested name that is a
field of the model. -/
def fields_get (M : OdooModel) (names : List String) : List (String × FieldMeta) :=
  names.filterMap (fun n => (getVal M.fields n).map (fun m => (n, m)))

/-- The selection declared on `material.material.type` in
`src/model/material.py`. -/
def materialSelection : List (String × String) :=
  [("fabric", "Fabric"), ("leather", "Leather"), ("cotton", "Cotton")]

/-- The `material.material` model of `src/model/material.py`. -/
def materialModel : OdooModel :=
  ⟨"material.material",
   [("id", ⟨Option.none⟩), ("name", ⟨Option.none⟩), ("code", ⟨Option.none⟩),
    ("type", ⟨some materialSelection⟩), ("buy_price", ⟨Option.none⟩),
    ("supplier_id", ⟨Option.none⟩)]⟩

/-- The message `f"Invalid field '{field_name}' in model '{...}'"`. -/
def invalidFieldMsg (M : OdooModel) (field_name : String) : String :=
  "Invalid field \x27" ++ field_name ++ "\x27 in model \x27" ++ M.className ++ "\x27"

/-- The message `f"Invalid value '{value}' for field '{field_name}' in model '{...}'"`. -/
def invalidValueMsg (M : OdooModel) (field_name : String) (v : PyVal) : String :=
  "Invalid value \x27" ++ pyStrOfVal v ++ "\x27 for field \x27" ++ field_name ++
    "\x27 in model \x27" ++ M.className ++ "\x27"

/-- The message `f"Field '{field}' must be of type '{expected_type}'"`. -/
def typeMsg (field : String) (tys : List PyType) : String :=
  "Field \x27" ++ field ++ "\x27 must be of type \x27" ++ tysRepr tys ++ "\x27"

/-- Python `value in valid_values` where `valid_values` is a list of
strings (values of other runtime types compare unequal to every string). -/
def pyValInStrList (v : PyVal) (valids : List String) : Bool :=
  match v with
  | .str s => valids.contains s
  | _ => false

/-- `validate_selection_field` of `src/controllers/main.py`.  Note that the
metadata returned by `fields_get([field_name])` is indexed with the fixed
key `'type'`; a `KeyError` (either from that indexing or from a missing
`'selection'` key) is caught and reported as an invalid field. -/
def validate_selection_field (M : OdooModel) (field_name : String) (value_to_check : PyVal) :
    Bool × Option String :=
  if !pyTruthy value_to_check then (true, Option.none)
  else
    match getVal (fields_get M [field_name]) "type" with
    | Option.none => (false, some (invalidFieldMsg M field_name))
    | some meta =>
      match meta.selection with
      | Option.none => (false, some (invalidFieldMsg M field_name))
      | some sel =>
        if !pyValInStrList value_to_check (sel.map Prod.fst) then
          (false, some (invalidValueMsg M field_name value_to_check))
        else (true, Option.none)

/-- The validation rules of one field in `type_specs`: the accepted class
(or tuple of classes) and the `is_selection` flag. -/
structure FieldRules where
  type : List PyType
  is_selection : Bool
deriving DecidableEq, Repr

/-- `validate_payload` of `src/controllers/main.py`: walk the spec in
order; a field present with a non-null value is type-checked and, when
flagged, selection-checked; the first failure is returned at once. -/
def validate_payload (M : OdooModel) (data : Payload) :
    List (String × FieldRules) → Bool × Option String
  | [] => (true, Option.none)
  | (field, rules) :: rest =>
    match getVal data field with
    | Option.none => validate_payload M data rest
    | some v =>
      if v = PyVal.none then validate_payload M data rest
      else if !pyIsInstance v rules.type then
        (false, some (typeMsg field rules.type))
      else if rules.is_selection then
        if !(validate_selection_field M field v).1 then
          (false, (validate_selection_field M field v).2)
        else validate_payload M data rest
      else validate_payload M data rest

/-- The controller's class-level `type_specs`. -/
def type_specs : List (String × FieldRules) :=
  [("name", ⟨[.pstr], false⟩),
   ("code", ⟨[.pstr, .pint], false⟩),
   ("type", ⟨[.pstr], true⟩),
   ("buy_price", ⟨[.pint, .pfloat], false⟩),
   ("supplier_id", ⟨[.pint], false⟩)]

/-- The controller's class-level `allowed_filter`. -/
def allowed_filter : List String := ["type"]

/-- The `error` member of the response envelope. -/
structure ErrorInfo where
  code : Nat
  message : Option String
deriving DecidableEq, Repr

/-- The response envelope built by `json_response`. -/
structure Envelope (α : Type) where
  success : Bool
  data : Option α
  status_code : Nat
  error : Option ErrorInfo
deriving DecidableEq, Repr

/-- Python `error_code or d` for an optional integer (`None` and `0` are
falsy). -/
def pyOrNat (error_code : Option Nat) (d : Nat) : Nat :=
  match error_code with
  | some c => if c = 0 then d else c
  | Option.none => d

/-- Python `s.upper()` (character-wise upper-casing; HTTP method strings
are ASCII). -/
def pyUpper (s : String) : String := ⟨s.data.map Char.toUpper⟩

/-- Python `request_method and request_method.upper() == 'POST'`. -/
def isPostMethod : Option String → Bool
  | some m => !(m = "") && (pyUpper m = "POST")
  | Option.none => false

/-- The status code computed at the top of `json_response`. -/
def derive_status (success : Bool) (error_code : Option Nat)
    (request_method : Option String) : Nat :=
  if !success then pyOrNat error_code 400
  else if isPostMethod request_method then 201
  else 200

/-- `json_response` of `src/controllers/main.py`. -/
def json_response {α : Type} (success : Bool) (data : Option α) (error_code : Option Nat)
    (error_message : Option String) (request_method : Option String) : Envelope α :=
  ⟨success, data, derive_status success error_code request_method,
   if success then Option.none
   else some ⟨pyOrNat error_code (derive_status success error_code request_method),
              error_message⟩⟩

/-- One persisted `material.material` record.  Field values are kept as the
payload values that were written; `id` is assigned by the store. -/
structure MaterialRec where
  id : Int
  name : PyVal
  code : PyVal
  type : PyVal
  buy_price : PyVal
  supplier_id : PyVal
deriving DecidableEq, Repr

/-- The persistence layer: material records, existing supplier ids, and the
next id to assign. -/
structure Store where
  materials : List MaterialRec
  suppliers : List Int
  nextId : Int
deriving DecidableEq, Repr

/-- `material_obj.search([('id', '=', mid)])` reduced to the one record it
can return. -/
def materialSearch (st : Store) (mid : Int) : Option MaterialRec :=
  st.materials.find? (fun r => r.id = mid)

/-- `supplier_obj.search([('id', '=', v)])` is non-empty, for the payload
value `v` (`None` or a non-number matches nothing; `True == 1`). -/
def supplierResolve (st : Store) (v : Option PyVal) : Bool :=
  match v with
  | some (.int n) => st.suppliers.contains n
  | some (.bool b) => st.suppliers.contains (if b then (1 : Int) else 0)
  | _ => false

/-- `data.get(key)` with the absent case collapsed to `None`. -/
def getValD (data : Payload) (key : String) : PyVal :=
  (getVal data key).getD PyVal.none

/-- A fault raised by the persistence layer: a `ValidationError` (from
`@api.constrains`, caught by the handlers' first `except` and answered
400 with its message) or any other exception (`IntegrityError` from a
NOT-NULL/foreign-key/unique violation at flush, caught by the generic
`except Exception` and answered 500). -/
inductive OrmError where
  | validation (msg : String)
  | generic (msg : String)
deriving DecidableEq, Repr

/-- The required Many2one `supplier_id` of `src/model/material.py`
(`required=True`, foreign key to `supplier.supplier`): a written value
satisfies it iff it is truthy (a falsy value clears the column, violating
NOT NULL) and resolves to an existing supplier row. -/
def supplierRefOk (st : Store) (v : PyVal) : Bool :=
  pyTruthy v && supplierResolve st (some v)

/-- `material_obj.create(data)`: build the record, run the model's
`_check_buy_price` constraint (`ValidationError` on violation), then the
required supplier reference (NOT NULL / foreign key, an `IntegrityError`
at flush, i.e. a generic fault); nothing is persisted on a fault.  The
`UNIQUE(code)` constraint and the remaining required columns would surface
through the same generic branch and are not modelled; no theorem below
reaches the create success path. -/
def storeCreate (st : Store) (data : Payload) : Except OrmError (Store × MaterialRec) :=
  let newRec : MaterialRec :=
    ⟨st.nextId, getValD data "name", getValD data "code", getValD data "type",
     getValD data "buy_price", getValD data "supplier_id"⟩
  if pyLt newRec.buy_price 100 then
    Except.error (OrmError.validation "Buy price cannot be less than 100")
  else if !supplierRefOk st newRec.supplier_id then
    Except.error (OrmError.generic "not-null or foreign-key violation on supplier_id")
  else Except.ok (⟨st.materials ++ [newRec], st.suppliers, st.nextId + 1⟩, newRec)

/-- Overwrite one field of a record from the payload when present. -/
def updField (old : PyVal) (data : Payload) (key : String) : PyVal :=
  (getVal data key).getD old

/-- Apply a partial update payload to a record. -/
def applyUpd (r : MaterialRec) (data : Payload) : MaterialRec :=
  ⟨r.id, updField r.name data "name", updField r.code data "code",
   updField r.type data "type", updField r.buy_price data "buy_price",
   updField r.supplier_id data "supplier_id"⟩

/-- `material.write(data)`: apply the update, run `_check_buy_price` on
the written records (`@api.constrains` fires inside `write`, so its
`ValidationError` precedes any flush fault), then — when the payload
writes `supplier_id` — the required supplier reference, whose violation
is an `IntegrityError` at the flush forced by the subsequent `read`, i.e.
a generic fault.  On any fault the transaction is rolled back and the
store is unchanged.  `UNIQUE(code)` would surface through the same
generic branch and is not modelled; no theorem below reaches the write
success path with a changed `code`. -/
def storeWrite (st : Store) (mid : Int) (data : Payload) : Except OrmError Store :=
  let newMats := st.materials.map (fun r => if r.id = mid then applyUpd r data else r)
  if newMats.any (fun r => (r.id = mid) && pyLt r.buy_price 100) then
    Except.error (OrmError.validation "Buy price cannot be less than 100")
  else
    match getVal data "supplier_id" with
    | some sv =>
      if !supplierRefOk st sv then
        Except.error (OrmError.generic "not-null or foreign-key violation on supplier_id")
      else Except.ok ⟨newMats, st.suppliers, st.nextId⟩
    | Option.none => Except.ok ⟨newMats, st.suppliers, st.nextId⟩

/-- The `{'message': ...}` data returned by the delete endpoint. -/
structure MsgData where
  message : String
deriving DecidableEq, Repr

/-- An explicit transport response (`odoo.http.Response`): the serialized
envelope and the HTTP status passed to the `Response` constructor. -/
structure HttpResponse (α : Type) where
  body : Envelope α
  status : Nat
deriving DecidableEq, Repr

/-- Projection of a record field by name, for search domains. -/
def fieldGet (r : MaterialRec) : String → Option PyVal
  | "id" => some (PyVal.int r.id)
  | "name" => some r.name
  | "code" => some r.code
  | "type" => some r.type
  | "buy_price" => some r.buy_price
  | "supplier_id" => some r.supplier_id
  | _ => Option.none

/-- The search domain built by `list_materials`: one equality condition per
key in the intersection of the requested keys with `allowed_filter`. -/
def buildDomain (kwargs : List (String × String)) : List (String × String) :=
  allowed_filter.filterMap (fun k => (getVal kwargs k).map (fun v => (k, v)))

/-- A record satisfies every equality condition of a domain (query values
arrive as strings). -/
def matchesDomain (r : MaterialRec) (domain : List (String × String)) : Bool :=
  domain.all (fun cond =>
    match fieldGet r cond.1 with
    | some fv => fv = PyVal.str cond.2
    | Option.none => false)

/-- `list_materials` of `src/controllers/main.py` (`GET /api/material`). -/
def list_materials (st : Store) (kwargs : List (String × String)) :
    HttpResponse (List MaterialRec) :=
  ⟨json_response true (some (st.materials.filter (fun r => matchesDomain r (buildDomain kwargs))))
     Option.none Option.none Option.none, 200⟩

/-- `create_material` of `src/controllers/main.py`
(`POST /api/material/create`): returns the envelope and the store after the
request. -/
def create_material (st : Store) (data : Payload) : Envelope (List MaterialRec) × Store :=
  if data.isEmpty then
    (json_response false Option.none (some 400) (some "No data provided") Option.none, st)
  else
    match validate_payload materialModel data type_specs with
    | (false, msg) => (json_response false Option.none (some 400) msg Option.none, st)
    | (true, _) =>
      if !((type_specs.map Prod.fst).filter (fun f => (getVal data f).isNone)).isEmpty then
        (json_response false Option.none (some 400)
          (some ("missing fields in request: " ++ String.intercalate ", "
            ((type_specs.map Prod.fst).filter (fun f => (getVal data f).isNone))))
          Option.none, st)
      else if !pyTruthy (getValD data "buy_price") then
        (json_response false Option.none (some 400)
          (some "Buy price is required and cannot be null") Option.none, st)
      else if pyLt (getValD data "buy_price") 100 then
        (json_response false Option.none (some 400)
          (some "Buy price cannot be less than 100") Option.none, st)
      else if !supplierResolve st (getVal data "supplier_id") then
        (json_response false Option.none (some 404) (some "Supplier not found") Option.none, st)
      else
        match storeCreate st data with
        | Except.error (OrmError.validation msg) =>
          (json_response false Option.none (some 400) (some msg) Option.none, st)
        | Except.error (OrmError.generic msg) =>
          (json_response false Option.none (some 500)
            (some ("An unexpected server error occurred: " ++ msg)) Option.none, st)
        | Except.ok (st2, newRec) =>
          (json_response true (some [newRec]) Option.none Option.none (some "POST"), st2)

/-- `update_material` of `src/controllers/main.py`
(`PUT /api/material/update/<id>`). -/
def update_material (st : Store) (material_id : Int) (data : Payload) :
    Envelope MaterialRec × Store :=
  match materialSearch st material_id with
  | Option.none =>
    (json_response false Option.none (some 404) (some "Material not found") Option.none, st)
  | some _ =>
    if data.isEmpty then
      (json_response false Option.none (some 400) (some "No data provided") Option.none, st)
    else
      match validate_payload materialModel data type_specs with
      | (false, msg) => (json_response false Option.none (some 400) msg Option.none, st)
      | (true, _) =>
        if pyTruthy (getValD data "buy_price") && pyLt (getValD data "buy_price") 100 then
          (json_response false Option.none (some 400)
            (some "Buy price cannot be less than 100") Option.none, st)
        else if pyTruthy (getValD data "supplier_id") &&
            !supplierResolve st (getVal data "supplier_id") then
          (json_response false Option.none (some 404) (some "Supplier not found") Option.none, st)
        else
          match storeWrite st material_id data with
          | Except.error (OrmError.validation msg) =>
            (json_response false Option.none (some 400) (some msg) Option.none, st)
          | Except.error (OrmError.generic msg) =>
            (json_response false Option.none (some 500)
              (some ("An unexpected server error occurred: " ++ msg)) Option.none, st)
          | Except.ok st2 =>
            match materialSearch st2 material_id with
            | some r2 => (json_response true (some r2) Option.none Option.none Option.none, st2)
            | Option.none =>
              (json_response false Option.none (some 500)
                (some "An unexpected server error occurred: list index out of range")
                Option.none, st2)

/-- `delete_material` of `src/controllers/main.py`
(`DELETE /api/material/delete/<id>`).  `fault` models an unexpected fault
raised by `unlink`, caught by the handler's `except Exception` branch. -/
def delete_material (st : Store) (material_id : Int) (fault : Option String) :
    HttpResponse MsgData × Store :=
  match materialSearch st material_id with
  | Option.none =>
    (⟨json_response false Option.none (some 404) (some "Material not found") Option.none,
      404⟩, st)
  | some _ =>
    match fault with
    | some e =>
      (⟨json_response false Option.none (some 500)
          (some ("An unexpected server error occurred: " ++ e)) Option.none, 500⟩, st)
    | Option.none =>
      (⟨json_response true (some ⟨"Material deleted successfully"⟩) Option.none Option.none
          Option.none, 200⟩,
       ⟨st.materials.filter (fun r => !(r.id = material_id)), st.suppliers, st.nextId⟩)

/-- A material/supplier fixture: one material (id 1) owned by supplier 2. -/
def sampleRec : MaterialRec :=
  ⟨1, PyVal.str "Test Material", PyVal.str "TEST001", PyVal.str "fabric",
   PyVal.float 100, PyVal.int 2⟩

/-- A store holding `sampleRec` and the supplier with id 2. -/
def sampleStore : Store := ⟨[sampleRec], [2], 2⟩

theorem getVal_isSome_iff_mem {α : Type} (l : List (String × α)) (k : String) :
    (getVal l k).isSome = true ↔ k ∈ l.map Prod.fst := by
  induction l with
  | nil => simp [getVal]
  | cons p rest ih =>
    obtain ⟨pk, pv⟩ := p
    by_cases h : pk = k
    · subst h
      simp [getVal]
    · simp [getVal, h, ih, Ne.symm h]

theorem mem_keys_of_getVal {α : Type} {l : List (String × α)} {k : String} {v : α}
    (h : getVal l k = some v) : k ∈ l.map Prod.fst := by
  rw [← getVal_isSome_iff_mem, h]
  rfl

theorem isEmpty_false_of_getVal {α : Type} {l : List (String × α)} {k : String} {v : α}
    (h : getVal l k = some v) : l.isEmpty = false := by
  cases l with
  | nil => simp [getVal] at h
  | cons p rest => rfl

theorem find?_pred {α : Type} (p : α → Bool) (l : List α) (a : α)
    (h : l.find? p = some a) : p a = true :=
  List.find?_some h

theorem pyTruthy_num {v : PyVal} (h : isNum v = true) :
    pyTruthy v = true ↔ pyToRat v ≠ 0 := by
  cases v with
  | int n => simp [pyTruthy, pyToRat]
  | float q => simp [pyTruthy, pyToRat]
  | bool b => cases b <;> simp [pyTruthy, pyToRat]
  | str s => simp [isNum] at h
  | none => simp [isNum] at h

/-- Claim C2 (amended): when `success` is false the derived status is the
provided error code when that code is nonzero, and 400 when the code is
absent or zero (Python falsiness); when `success` is true and the
originating method upper-cases to `POST` the status is 201; when `success`
is true and the method is absent or does not upper-case to `POST` the
status is 200. -/
theorem derive_status_spec {α : Type} (success : Bool) (data : Option α)
    (error_code : Option Nat) (error_message request_method : Option String) :
    (success = false → ∀ c : Nat, error_code = some c → c ≠ 0 →
      (json_response success data error_code error_message request_method).status_code = c)
    ∧ (success = false → (error_code = Option.none ∨ error_code = some 0) →
      (json_response success data error_code error_message request_method).status_code = 400)
    ∧ (success = true → ∀ m : String, request_method = some m → pyUpper m = "POST" →
      (json_response success data error_code error_message request_method).status_code = 201)
    ∧ (success = true → (∀ m : String, request_method = some m → pyUpper m ≠ "POST") →
      (json_response success data error_code error_message request_method).status_code = 200) := by
  refine ⟨?_, ?_, ?_, ?_⟩
  · rintro rfl c rfl hc
    simp [json_response, derive_status, pyOrNat, hc]
  · rintro rfl (rfl | rfl) <;> simp [json_response, derive_status, pyOrNat]
  · rintro rfl m rfl hm
    have hne : m ≠ "" := by
      intro he
      rw [he] at hm
      exact absurd hm (by decide)
    simp [json_response, derive_status, isPostMethod, hne, hm]
  · rintro rfl hm
    match request_method with
    | Option.none => simp [json_response, derive_status, isPostMethod]
    | some m =>
      have := hm m rfl
      simp [json_response, derive_status, isPostMethod, this]

theorem derive_status_spec_witness :
    ((404 : Nat) ≠ 0) ∧
    (json_response false (Option.none : Option Unit) (some 404) Option.none
      Option.none).status_code = 404 :=
  ⟨by decide,
   (derive_status_spec false Option.none (some 404) Option.none Option.none).1 rfl 404 rfl
     (by decide)⟩

/-- Claim C2 (counterexample): the error code 0 is provided, yet the
derived status is 400, not 0 — `error_code or 400` treats a zero code like
an absent one. -/
theorem json_response_zero_error_code :
    (json_response false (Option.none : Option Unit) (some 0) (some "boom")
      Option.none).status_code = 400 ∧ (400 : Nat) ≠ 0 :=
  ⟨rfl, by decide⟩

/-- Claim C10 (amended): the envelope's `error` is null exactly when
`success` is true; on failure the error object's code equals the envelope's
`status_code`, both being the provided error code when it is nonzero and
400 when the error code is absent or zero. -/
theorem envelope_error_invariant {α : Type} (success : Bool) (data : Option α)
    (error_code : Option Nat) (error_message request_method : Option String) :
    ((json_response success data error_code error_message request_method).error = Option.none
      ↔ success = true)
    ∧ (success = false → ∀ c : Nat, error_code = some c → c ≠ 0 →
      (json_response success data error_code error_message request_method).error
          = some ⟨c, error_message⟩
        ∧ (json_response success data error_code error_message request_method).status_code = c)
    ∧ (success = false → (error_code = Option.none ∨ error_code = some 0) →
      (json_response success data error_code error_message request_method).error
          = some ⟨400, error_message⟩
        ∧ (json_response success data error_code error_message request_method).status_code
          = 400) := by
  refine ⟨?_, ?_, ?_⟩
  · cases success <;> simp [json_response]
  · rintro rfl c rfl hc
    simp [json_response, derive_status, pyOrNat, hc]
  · rintro rfl (rfl | rfl) <;> simp [json_response, derive_status, pyOrNat]

theorem envelope_error_invariant_witness :
    ((404 : Nat) ≠ 0) ∧
    ((json_response false (Option.none : Option Unit) (some 404) (some "Material not found")
        Option.none).error = some ⟨404, some "Material not found"⟩
      ∧ (json_response false (Option.none : Option Unit) (some 404)
          (some "Material not found") Option.none).status_code = 404) :=
  ⟨by decide,
   (envelope_error_invariant false Option.none (some 404) (some "Material not found")
       Option.none).2.1 rfl 404 rfl (by decide)⟩

/-- Claim C10 (counterexample): with the provided error code 0 the error
object's code is 400, not the provided 0. -/
theorem envelope_error_code_zero :
    (json_response false (Option.none : Option Unit) (some 0) (some "boom")
      Option.none).error = some ⟨400, some "boom"⟩ ∧ (400 : Nat) ≠ 0 :=
  ⟨rfl, by decide⟩

/-- Claim C8: in every branch of the two endpoints that construct an
explicit transport `Response` (list and delete), the HTTP status passed to
the `Response` constructor equals the `status_code` field inside the
envelope body. -/
theorem transport_status_matches_envelope (st : Store) (kwargs : List (String × String))
    (mid : Int) (fault : Option String) :
    (list_materials st kwargs).status = (list_materials st kwargs).body.status_code
    ∧ (delete_material st mid fault).1.status
      = (delete_material st mid fault).1.body.status_code := by
  constructor
  · rfl
  · cases h : materialSearch st mid with
    | none => simp [delete_material, h, json_response, derive_status, pyOrNat]
    | some m =>
      cases fault with
      | none => simp [delete_material, h, json_response, derive_status, pyOrNat, isPostMethod]
      | some e => simp [delete_material, h, json_response, derive_status, pyOrNat]

/-- Claim C7: deleting an existing material returns transport status 200
with envelope status 200 and `data.message = "Material deleted
successfully"`; afterwards a lookup by that id finds nothing, and a second
delete of the same id returns 404 (transport and envelope). -/
theorem delete_material_lifecycle (st : Store) (mid : Int) (m : MaterialRec)
    (h : materialSearch st mid = some m) :
    (delete_material st mid Option.none).1.status = 200
    ∧ (delete_material st mid Option.none).1.body.status_code = 200
    ∧ (delete_material st mid Option.none).1.body.data
      = some ⟨"Material deleted successfully"⟩
    ∧ materialSearch (delete_material st mid Option.none).2 mid = Option.none
    ∧ (delete_material (delete_material st mid Option.none).2 mid Option.none).1.status = 404
    ∧ (delete_material (delete_material st mid Option.none).2 mid
        Option.none).1.body.status_code = 404 := by
  have hstep : delete_material st mid Option.none
      = (⟨json_response true (some ⟨"Material deleted successfully"⟩) Option.none Option.none
            Option.none, 200⟩,
         (⟨st.materials.filter (fun r => !(r.id = mid)), st.suppliers, st.nextId⟩ : Store)) := by
    simp only [delete_material, h]
  have hgone : materialSearch
      (⟨st.materials.filter (fun r => !(r.id = mid)), st.suppliers, st.nextId⟩ : Store) mid
      = Option.none := by
    rw [materialSearch, List.find?_eq_none]
    intro x hx
    have hmem := (List.mem_filter.mp hx).2
    simp only [Bool.not_eq_true', decide_eq_false_iff_not] at hmem
    simp [hmem]
  rw [hstep]
  refine ⟨rfl, rfl, rfl, hgone, ?_, ?_⟩
  · simp only [delete_material, hgone]
  · simp only [delete_material, hgone, json_response, derive_status, pyOrNat]
    rfl

theorem delete_material_lifecycle_witness :
    materialSearch sampleStore 1 = some sampleRec
    ∧ ((delete_material sampleStore 1 Option.none).1.status = 200
      ∧ (delete_material sampleStore 1 Option.none).1.body.status_code = 200
      ∧ (delete_material sampleStore 1 Option.none).1.body.data
        = some ⟨"Material deleted successfully"⟩
      ∧ materialSearch (delete_material sampleStore 1 Option.none).2 1 = Option.none
      ∧ (delete_material (delete_material sampleStore 1 Option.none).2 1
          Option.none).1.status = 404
      ∧ (delete_material (delete_material sampleStore 1 Option.none).2 1
          Option.none).1.body.status_code = 404) :=
  ⟨by decide, delete_material_lifecycle sampleStore 1 sampleRec (by decide)⟩

/-- Claim C6: the search domain is the set of equality conditions on
exactly the intersection of the requested keys with the allow-list
`['type']`, each condition carrying the requested value; filtering by
`type=v` returns only materials whose `type` equals `v`; a request whose
keys all lie outside the allow-list returns the unfiltered set. -/
theorem list_materials_filtering (st : Store) (kwargs : List (String × String)) (v : String) :
    (∀ k : String, k ∈ (buildDomain kwargs).map Prod.fst ↔
      (k ∈ allowed_filter ∧ k ∈ kwargs.map Prod.fst))
    ∧ (∀ p ∈ buildDomain kwargs, getVal kwargs p.1 = some p.2)
    ∧ (getVal kwargs "type" = some v →
      ∀ r ∈ ((list_materials st kwargs).body.data.getD []), r.type = PyVal.str v)
    ∧ ((∀ k ∈ kwargs.map Prod.fst, k ∉ allowed_filter) →
      (list_materials st kwargs).body.data = some st.materials) := by
  have hbd_none : getVal kwargs "type" = Option.none → buildDomain kwargs = [] := by
    intro hg
    simp [buildDomain, allowed_filter, hg]
  have hbd_some : ∀ w : String, getVal kwargs "type" = some w →
      buildDomain kwargs = [("type", w)] := by
    intro w hg
    simp [buildDomain, allowed_filter, hg]
  have hfg_type : ∀ r : MaterialRec, fieldGet r "type" = some r.type := fun r => rfl
  refine ⟨?_, ?_, ?_, ?_⟩
  · intro k
    cases hg : getVal kwargs "type" with
    | none =>
      rw [hbd_none hg]
      constructor
      · intro hk
        simp at hk
      · rintro ⟨hk1, hk2⟩
        simp only [allowed_filter, List.mem_singleton] at hk1
        subst hk1
        rw [← getVal_isSome_iff_mem, hg] at hk2
        simp at hk2
    | some w =>
      rw [hbd_some w hg]
      have hmem : "type" ∈ kwargs.map Prod.fst := mem_keys_of_getVal hg
      constructor
      · intro hk
        simp only [List.map_cons, List.map_nil, List.mem_singleton] at hk
        subst hk
        exact ⟨by simp [allowed_filter], hmem⟩
      · rintro ⟨hk1, _⟩
        simp only [allowed_filter, List.mem_singleton] at hk1
        subst hk1
        simp
  · intro p hp
    cases hg : getVal kwargs "type" with
    | none =>
      rw [hbd_none hg] at hp
      simp at hp
    | some w =>
      rw [hbd_some w hg] at hp
      simp only [List.mem_singleton] at hp
      subst hp
      exact hg
  · intro hg r hr
    simp only [list_materials, json_response, Option.getD_some] at hr
    have hmatch := (List.mem_filter.mp hr).2
    rw [hbd_some v hg] at hmatch
    simp only [matchesDomain, List.all_cons, List.all_nil, Bool.and_true, hfg_type,
      decide_eq_true_eq] at hmatch
    exact hmatch
  · intro hnone
    have hg : getVal kwargs "type" = Option.none := by
      cases hg2 : getVal kwargs "type" with
      | none => rfl
      | some w =>
        exact absurd (show "type" ∈ allowed_filter by simp [allowed_filter])
          (hnone "type" (mem_keys_of_getVal hg2))
    simp only [list_materials, json_response]
    rw [hbd_none hg]
    congr 1
    rw [List.filter_eq_self]
    intro r _
    rfl

theorem list_materials_filtering_witness :
    getVal [("type", "fabric")] "type" = some "fabric"
    ∧ ∀ r ∈ ((list_materials sampleStore [("type", "fabric")]).body.data.getD []),
      r.type = PyVal.str "fabric" :=
  ⟨rfl, (list_materials_filtering sampleStore [("type", "fabric")] "fabric").2.2.1 rfl⟩

theorem getVal_fields_get_single (M : OdooModel) (f k : String) (hk : f ≠ k) :
    getVal (fields_get M [f]) k = Option.none := by
  cases hg : getVal M.fields f with
  | none => simp [fields_get, List.filterMap_cons, List.filterMap_nil, hg, getVal]
  | some meta => simp [fields_get, List.filterMap_cons, List.filterMap_nil, hg, getVal, hk]

/-- Claim C9: the selection check indexes the `fields_get` result with the
fixed key `'type'`: for the field named `type` (truthy value) it succeeds
exactly on membership in the model's declared selection values, and its
failure is the invalid-value message; for any other field name — even one
the model defines — the lookup raises `KeyError` and the check fails with
the invalid-field message. -/
theorem selection_check_uses_fixed_key (v : PyVal) (f : String)
    (hv : pyTruthy v = true) (hf : f ≠ "type")
    (hdef : f ∈ materialModel.fields.map Prod.fst) :
    ((validate_selection_field materialModel "type" v).1 = true ↔
      pyValInStrList v ["fabric", "leather", "cotton"] = true)
    ∧ ((validate_selection_field materialModel "type" v).1 = false →
      (validate_selection_field materialModel "type" v).2
        = some (invalidValueMsg materialModel "type" v))
    ∧ validate_selection_field materialModel f v
      = (false, some (invalidFieldMsg materialModel f)) := by
  have hform : validate_selection_field materialModel "type" v
      = if !pyValInStrList v ["fabric", "leather", "cotton"] then
          (false, some (invalidValueMsg materialModel "type" v))
        else (true, Option.none) := by
    rw [validate_selection_field, hv]
    rfl
  refine ⟨?_, ?_, ?_⟩
  · rw [hform]
    cases hm : pyValInStrList v ["fabric", "leather", "cotton"] with
    | false => simp [hm]
    | true => simp [hm]
  · rw [hform]
    cases hm : pyValInStrList v ["fabric", "leather", "cotton"] with
    | false => simp [hm]
    | true => simp [hm]
  · have hkey : getVal (fields_get materialModel [f]) "type" = Option.none :=
      getVal_fields_get_single materialModel f "type" hf
    rw [validate_selection_field, hv, hkey]
    rfl

theorem selection_check_uses_fixed_key_witness :
    pyTruthy (PyVal.str "fabric") = true
    ∧ "name" ≠ "type"
    ∧ "name" ∈ materialModel.fields.map Prod.fst
    ∧ (((validate_selection_field materialModel "type" (PyVal.str "fabric")).1 = true ↔
        pyValInStrList (PyVal.str "fabric") ["fabric", "leather", "cotton"] = true)
      ∧ ((validate_selection_field materialModel "type" (PyVal.str "fabric")).1 = false →
        (validate_selection_field materialModel "type" (PyVal.str "fabric")).2
          = some (invalidValueMsg materialModel "type" (PyVal.str "fabric")))
      ∧ validate_selection_field materialModel "name" (PyVal.str "fabric")
        = (false, some (invalidFieldMsg materialModel "name"))) :=
  ⟨by decide, by decide, by decide,
   selection_check_uses_fixed_key (PyVal.str "fabric") "name" (by decide) (by decide)
     (by decide)⟩

/-- A field of the spec lets `validate_payload` continue past it: it is
absent, null, or passes its type check and (when flagged) its selection
check. -/
def fieldCheckPasses (M : OdooModel) (data : Payload) (field : String)
    (rules : FieldRules) : Bool :=
  match getVal data field with
  | Option.none => true
  | some v =>
    if v = PyVal.none then true
    else pyIsInstance v rules.type &&
      (!rules.is_selection || (validate_selection_field M field v).1)

theorem validate_payload_skip (M : OdooModel) (data : Payload) (field : String)
    (rules : FieldRules) (rest : List (String × FieldRules))
    (h : fieldCheckPasses M data field rules = true) :
    validate_payload M data ((field, rules) :: rest) = validate_payload M data rest := by
  cases hg : getVal data field with
  | none => simp only [validate_payload, hg]
  | some v =>
    simp only [fieldCheckPasses, hg] at h
    simp only [validate_payload, hg]
    by_cases hn : v = PyVal.none
    · simp [hn]
    · rw [if_neg hn] at h
      rw [if_neg hn]
      simp only [Bool.and_eq_true] at h
      obtain ⟨h1, h2⟩ := h
      simp only [h1, Bool.not_true, Bool.false_eq_true, if_false]
      cases hs : rules.is_selection with
      | false => simp [hs]
      | true =>
        rw [hs] at h2
        simp only [Bool.not_true, Bool.false_or] at h2
        simp [hs, h2]

/-- Claim C3: the validator checks only spec fields present with a
non-null value; when every field before `field` (in spec order) passes its
checks and `field` is present, non-null and fails its runtime type check,
the validator returns at once the failure naming `field` and its expected
type, regardless of the fields after it; and a payload in which every spec
field is absent or null validates successfully. -/
theorem validate_payload_first_failure (M : OdooModel) (data : Payload)
    (pre post : List (String × FieldRules)) (field : String) (rules : FieldRules)
    (v : PyVal) (data2 : Payload) (specs2 : List (String × FieldRules))
    (hpre : ∀ p ∈ pre, fieldCheckPasses M data p.1 p.2 = true)
    (hv : getVal data field = some v) (hnn : v ≠ PyVal.none)
    (hty : pyIsInstance v rules.type = false)
    (habs : ∀ p ∈ specs2,
      getVal data2 p.1 = Option.none ∨ getVal data2 p.1 = some PyVal.none) :
    validate_payload M data (pre ++ (field, rules) :: post)
      = (false, some (typeMsg field rules.type))
    ∧ validate_payload M data2 specs2 = (true, Option.none) := by
  constructor
  · induction pre with
    | nil =>
      rw [List.nil_append]
      simp only [validate_payload, hv]
      rw [if_neg hnn, hty]
      simp
    | cons p rest ih =>
      obtain ⟨pf, pr⟩ := p
      rw [List.cons_append,
        validate_payload_skip M data pf pr (rest ++ (field, rules) :: post)
          (hpre (pf, pr) (List.mem_cons_self _ _))]
      exact ih (fun q hq => hpre q (List.mem_cons_of_mem _ hq))
  · induction specs2 with
    | nil => rfl
    | cons p rest ih =>
      obtain ⟨pf, pr⟩ := p
      rcases habs (pf, pr) (List.mem_cons_self _ _) with hab | hab
      · simp only [validate_payload, hab]
        exact ih (fun q hq => habs q (List.mem_cons_of_mem _ hq))
      · simp only [validate_payload, hab, if_pos]
        exact ih (fun q hq => habs q (List.mem_cons_of_mem _ hq))

theorem validate_payload_first_failure_witness :
    (∀ p ∈ [(("name" : String), (⟨[PyType.pstr], false⟩ : FieldRules))],
      fieldCheckPasses materialModel
        [("name", PyVal.str "ok"), ("code", PyVal.float 2), ("buy_price", PyVal.str "bad")]
        p.1 p.2 = true)
    ∧ getVal [("name", PyVal.str "ok"), ("code", PyVal.float 2),
        ("buy_price", PyVal.str "bad")] "code" = some (PyVal.float 2)
    ∧ PyVal.float 2 ≠ PyVal.none
    ∧ pyIsInstance (PyVal.float 2) [PyType.pstr, PyType.pint] = false
    ∧ (∀ p ∈ type_specs, getVal [("type", PyVal.none)] p.1 = Option.none
        ∨ getVal [("type", PyVal.none)] p.1 = some PyVal.none)
    ∧ (validate_payload materialModel
        [("name", PyVal.str "ok"), ("code", PyVal.float 2), ("buy_price", PyVal.str "bad")]
        ([("name", ⟨[PyType.pstr], false⟩)] ++ ("code", ⟨[PyType.pstr, PyType.pint], false⟩)
          :: [("type", ⟨[PyType.pstr], true⟩), ("buy_price", ⟨[PyType.pint, PyType.pfloat], false⟩),
              ("supplier_id", ⟨[PyType.pint], false⟩)])
        = (false, some (typeMsg "code" [PyType.pstr, PyType.pint]))
      ∧ validate_payload materialModel [("type", PyVal.none)] type_specs
        = (true, Option.none)) :=
  ⟨by decide, by decide, by decide, by decide, by decide,
   validate_payload_first_failure materialModel
     [("name", PyVal.str "ok"), ("code", PyVal.float 2), ("buy_price", PyVal.str "bad")]
     [("name", ⟨[PyType.pstr], false⟩)]
     [("type", ⟨[PyType.pstr], true⟩), ("buy_price", ⟨[PyType.pint, PyType.pfloat], false⟩),
      ("supplier_id", ⟨[PyType.pint], false⟩)]
     "code" ⟨[PyType.pstr, PyType.pint], false⟩ (PyVal.float 2)
     [("type", PyVal.none)] type_specs
     (by decide) (by decide) (by decide) (by decide) (by decide)⟩

/-- Claim C5 (counterexample): the empty payload omits every spec field,
yet the 400 response carries the message `No data provided`, not the
comma-joined list of missing field names. -/
theorem create_empty_payload_message :
    (create_material ⟨[], [], 1⟩ []).1.error = some ⟨400, some "No data provided"⟩
    ∧ getVal ([] : Payload) "name" = Option.none
    ∧ "No data provided"
      ≠ "missing fields in request: name, code, type, buy_price, supplier_id" :=
  ⟨rfl, rfl, by decide⟩

/-- Claim C5 (amended): every create request whose payload omits at least
one spec field is rejected with status 400 and leaves the store unchanged;
when moreover the payload is non-empty and passes type/selection
validation, the error message is `missing fields in request: ` followed by
the missing field names (in spec order) joined by commas. -/
theorem create_missing_fields_amended (st : Store) (data : Payload) (f : String)
    (st2 : Store) (data2 : Payload)
    (hf : f ∈ type_specs.map Prod.fst) (habs : getVal data f = Option.none)
    (hne2 : data2.isEmpty = false)
    (hval2 : (validate_payload materialModel data2 type_specs).1 = true)
    (hmiss2 : ((type_specs.map Prod.fst).filter
      (fun g => (getVal data2 g).isNone)).isEmpty = false) :
    ((create_material st data).1.status_code = 400 ∧ (create_material st data).2 = st)
    ∧ ((create_material st2 data2).1.error
        = some ⟨400, some ("missing fields in request: " ++ String.intercalate ", "
            ((type_specs.map Prod.fst).filter (fun g => (getVal data2 g).isNone)))⟩
      ∧ (create_material st2 data2).1.status_code = 400
      ∧ (create_material st2 data2).2 = st2) := by
  constructor
  · by_cases hne : data.isEmpty = true
    · refine ⟨?_, ?_⟩ <;> simp [create_material, hne, json_response, derive_status, pyOrNat]
    · have hne2a : data.isEmpty = false := by
        cases hx : data.isEmpty
        · rfl
        · exact absurd hx hne
      have hmem : f ∈ (type_specs.map Prod.fst).filter (fun g => (getVal data g).isNone) :=
        List.mem_filter.mpr ⟨hf, by simp [habs]⟩
      have hmiss : ((type_specs.map Prod.fst).filter
          (fun g => (getVal data g).isNone)).isEmpty = false := by
        cases hfl : (type_specs.map Prod.fst).filter (fun g => (getVal data g).isNone) with
        | nil =>
          rw [hfl] at hmem
          simp at hmem
        | cons a l => rfl
      simp only [create_material, hne2a, Bool.false_eq_true, if_false]
      split
      · exact ⟨rfl, rfl⟩
      · refine ⟨?_, ?_⟩ <;> simp [hmiss, json_response, derive_status, pyOrNat]
  · simp only [create_material, hne2, Bool.false_eq_true, if_false]
    rcases hvp : validate_payload materialModel data2 type_specs with ⟨b, msg⟩
    rw [hvp] at hval2
    have hb : b = true := hval2
    subst hb
    refine ⟨?_, ?_, ?_⟩ <;> simp [hmiss2, json_response, derive_status, pyOrNat]

theorem create_missing_fields_witness :
    "code" ∈ type_specs.map Prod.fst
    ∧ getVal [("name", PyVal.str "x")] "code" = Option.none
    ∧ ([("name", PyVal.str "x")] : Payload).isEmpty = false
    ∧ (validate_payload materialModel [("name", PyVal.str "x")] type_specs).1 = true
    ∧ ((type_specs.map Prod.fst).filter
        (fun g => (getVal [("name", PyVal.str "x")] g).isNone)).isEmpty = false
    ∧ (((create_material ⟨[], [], 1⟩ [("name", PyVal.str "x")]).1.status_code = 400
        ∧ (create_material ⟨[], [], 1⟩ [("name", PyVal.str "x")]).2 = ⟨[], [], 1⟩)
      ∧ ((create_material ⟨[], [], 2⟩ [("name", PyVal.str "x")]).1.error
          = some ⟨400, some ("missing fields in request: " ++ String.intercalate ", "
              ((type_specs.map Prod.fst).filter
                (fun g => (getVal [("name", PyVal.str "x")] g).isNone)))⟩
        ∧ (create_material ⟨[], [], 2⟩ [("name", PyVal.str "x")]).1.status_code = 400
        ∧ (create_material ⟨[], [], 2⟩ [("name", PyVal.str "x")]).2 = ⟨[], [], 2⟩)) :=
  ⟨by decide, by decide, by decide, by decide, by decide,
   create_missing_fields_amended ⟨[], [], 1⟩ [("name", PyVal.str "x")] "code"
     ⟨[], [], 2⟩ [("name", PyVal.str "x")] (by decide) (by decide) (by decide) (by decide)
     (by decide)⟩

/-- Claim C4 (counterexample): an update whose payload carries
`supplier_id = 0` — present, and resolving to no supplier — is not answered
with 404 `Supplier not found`: the falsy guard `if data.get('supplier_id'):`
skips the lookup, the write clears the required Many2one, and the
persistence fault is answered by the generic branch with 500. -/
theorem supplier_zero_skips_lookup :
    supplierResolve sampleStore (some (PyVal.int 0)) = false
    ∧ getVal [("supplier_id", PyVal.int 0)] "supplier_id" = some (PyVal.int 0)
    ∧ (update_material sampleStore 1 [("supplier_id", PyVal.int 0)]).1.status_code = 500
    ∧ (update_material sampleStore 1 [("supplier_id", PyVal.int 0)]).1.error
      ≠ some ⟨404, some "Supplier not found"⟩
    ∧ (update_material sampleStore 1 [("supplier_id", PyVal.int 0)]).2 = sampleStore := by
  refine ⟨by decide, by decide, ?_, ?_, ?_⟩ <;> decide

/-- Claim C4 (amended): when the earlier checks pass, an unresolvable
supplier is answered with 404 `Supplier not found` and nothing is persisted
or mutated.  For create the earlier checks are: validation passes, no spec
field is missing, `buy_price` is truthy and not below 100.  For update they
are: the target material exists, the payload is non-empty, validation
passes, the buy-price guard does not fire — and, unlike create, the
supplier lookup runs only when the submitted `supplier_id` is truthy
(nonzero). -/
theorem supplier_not_found_amended (st : Store) (data : Payload)
    (hval : (validate_payload materialModel data type_specs).1 = true)
    (hmiss : (type_specs.map Prod.fst).filter (fun g => (getVal data g).isNone) = [])
    (hbp : pyTruthy (getValD data "buy_price") = true)
    (hlt : pyLt (getValD data "buy_price") 100 = false)
    (hsup : supplierResolve st (getVal data "supplier_id") = false)
    (st2 : Store) (mid : Int) (m : MaterialRec) (data2 : Payload) (sv : PyVal)
    (hm : materialSearch st2 mid = some m) (hne2 : data2.isEmpty = false)
    (hval2 : (validate_payload materialModel data2 type_specs).1 = true)
    (hprice2 : (pyTruthy (getValD data2 "buy_price")
      && pyLt (getValD data2 "buy_price") 100) = false)
    (hsv : getVal data2 "supplier_id" = some sv) (htr : pyTruthy sv = true)
    (hres : supplierResolve st2 (some sv) = false) :
    ((create_material st data).1.status_code = 404
      ∧ (create_material st data).1.error = some ⟨404, some "Supplier not found"⟩
      ∧ (create_material st data).2 = st)
    ∧ ((update_material st2 mid data2).1.status_code = 404
      ∧ (update_material st2 mid data2).1.error = some ⟨404, some "Supplier not found"⟩
      ∧ (update_material st2 mid data2).2 = st2) := by
  constructor
  · have hne : data.isEmpty = false := by
      have hkeys : "name" ∈ type_specs.map Prod.fst := by decide
      have hnn : ¬((getVal data "name").isNone = true) := by
        intro hno
        have hin : "name" ∈ (type_specs.map Prod.fst).filter
            (fun g => (getVal data g).isNone) := List.mem_filter.mpr ⟨hkeys, hno⟩
        rw [hmiss] at hin
        simp at hin
      cases hgn : getVal data "name" with
      | none => rw [hgn] at hnn; simp at hnn
      | some w => exact isEmpty_false_of_getVal hgn
    simp only [create_material, hne, Bool.false_eq_true, if_false]
    rcases hvp : validate_payload materialModel data type_specs with ⟨b, msg⟩
    rw [hvp] at hval
    have hb : b = true := hval
    subst hb
    refine ⟨?_, ?_, ?_⟩ <;>
      simp [hmiss, hbp, hlt, hsup, json_response, derive_status, pyOrNat]
  · have hgd : getValD data2 "supplier_id" = sv := by
      rw [getValD, hsv]
      rfl
    simp only [update_material, hm, hne2, Bool.false_eq_true, if_false]
    rcases hvp : validate_payload materialModel data2 type_specs with ⟨b, msg⟩
    rw [hvp] at hval2
    have hb : b = true := hval2
    subst hb
    refine ⟨?_, ?_, ?_⟩ <;>
      simp [hprice2, hgd, hsv, htr, hres, json_response, derive_status, pyOrNat]

theorem supplier_not_found_witness :
    (validate_payload materialModel
      [("name", PyVal.str "a"), ("code", PyVal.str "c1"), ("type", PyVal.str "fabric"),
       ("buy_price", PyVal.int 150), ("supplier_id", PyVal.int 5)] type_specs).1 = true
    ∧ (type_specs.map Prod.fst).filter (fun g => (getVal
        [("name", PyVal.str "a"), ("code", PyVal.str "c1"), ("type", PyVal.str "fabric"),
         ("buy_price", PyVal.int 150), ("supplier_id", PyVal.int 5)] g).isNone) = []
    ∧ materialSearch sampleStore 1 = some sampleRec
    ∧ pyTruthy (PyVal.int 7) = true
    ∧ supplierResolve sampleStore (some (PyVal.int 7)) = false
    ∧ ((create_material ⟨[], [], 1⟩
        [("name", PyVal.str "a"), ("code", PyVal.str "c1"), ("type", PyVal.str "fabric"),
         ("buy_price", PyVal.int 150), ("supplier_id", PyVal.int 5)]).1.status_code = 404
      ∧ (create_material ⟨[], [], 1⟩
          [("name", PyVal.str "a"), ("code", PyVal.str "c1"), ("type", PyVal.str "fabric"),
           ("buy_price", PyVal.int 150), ("supplier_id", PyVal.int 5)]).1.error
        = some ⟨404, some "Supplier not found"⟩
      ∧ (create_material ⟨[], [], 1⟩
          [("name", PyVal.str "a"), ("code", PyVal.str "c1"), ("type", PyVal.str "fabric"),
           ("buy_price", PyVal.int 150), ("supplier_id", PyVal.int 5)]).2 = ⟨[], [], 1⟩)
    ∧ ((update_material sampleStore 1 [("supplier_id", PyVal.int 7)]).1.status_code = 404
      ∧ (update_material sampleStore 1 [("supplier_id", PyVal.int 7)]).1.error
        = some ⟨404, some "Supplier not found"⟩
      ∧ (update_material sampleStore 1 [("supplier_id", PyVal.int 7)]).2 = sampleStore) := by
  have h := supplier_not_found_amended ⟨[], [], 1⟩
    [("name", PyVal.str "a"), ("code", PyVal.str "c1"), ("type", PyVal.str "fabric"),
     ("buy_price", PyVal.int 150), ("supplier_id", PyVal.int 5)]
    (by decide) (by decide) (by decide) (by decide) (by decide)
    sampleStore 1 sampleRec [("supplier_id", PyVal.int 7)] (PyVal.int 7)
    (by decide) (by decide) (by decide) (by decide) (by decide) (by decide) (by decide)
  exact ⟨by decide, by decide, by decide, by decide, by decide, h.1, h.2⟩

/-- Claim C1 (counterexample): an update request whose payload carries
`buy_price = 50 < 100` but whose path id matches no material is answered
with 404 (`Material not found`), not 400. -/
theorem update_missing_material_404 :
    getVal [("buy_price", PyVal.int 50)] "buy_price" = some (PyVal.int 50)
    ∧ pyToRat (PyVal.int 50) < 100
    ∧ (update_material ⟨[], [], 1⟩ 1 [("buy_price", PyVal.int 50)]).1.status_code = 404
    ∧ (404 : Nat) ≠ 400 :=
  ⟨rfl, by decide, by decide, by decide⟩

/-- Claim C1 (amended): a create request whose payload carries a numeric
`buy_price < 100` (including negative) is rejected with 400 and persists
nothing.  An update request carrying such a `buy_price` against an existing
material never succeeds and never mutates the store: when the value is
nonzero (truthy) the handler guard rejects with 400; when it is zero the
handler guard is skipped and — when type validation passes — the request is
answered 404 `Supplier not found` if the payload also carries a truthy
unresolvable `supplier_id`, and otherwise 400 with the persistence
constraint message `Buy price cannot be less than 100`.  (Updates aimed at
a missing id are answered 404 before any price check.) -/
theorem buy_price_floor_rejection (st : Store) (data : Payload) (v : PyVal)
    (st2 : Store) (mid : Int) (m : MaterialRec) (data2 : Payload) (v2 : PyVal)
    (hv : getVal data "buy_price" = some v) (hn : isNum v = true)
    (hlt : pyToRat v < 100)
    (hm : materialSearch st2 mid = some m)
    (hv2 : getVal data2 "buy_price" = some v2) (hn2 : isNum v2 = true)
    (hlt2 : pyToRat v2 < 100) :
    ((create_material st data).1.status_code = 400 ∧ (create_material st data).2 = st)
    ∧ (pyToRat v2 ≠ 0 →
      (update_material st2 mid data2).1.status_code = 400
      ∧ (update_material st2 mid data2).2 = st2)
    ∧ (pyToRat v2 = 0 →
      (validate_payload materialModel data2 type_specs).1 = true →
      ((pyTruthy (getValD data2 "supplier_id")
          && !supplierResolve st2 (getVal data2 "supplier_id")) = true →
        (update_material st2 mid data2).1.status_code = 404
        ∧ (update_material st2 mid data2).1.error = some ⟨404, some "Supplier not found"⟩
        ∧ (update_material st2 mid data2).2 = st2)
      ∧ ((pyTruthy (getValD data2 "supplier_id")
          && !supplierResolve st2 (getVal data2 "supplier_id")) = false →
        (update_material st2 mid data2).1.status_code = 400
        ∧ (update_material st2 mid data2).1.error
          = some ⟨400, some "Buy price cannot be less than 100"⟩
        ∧ (update_material st2 mid data2).2 = st2))
    ∧ ((update_material st2 mid data2).1.success = false
      ∧ (update_material st2 mid data2).2 = st2) := by
  have hgd : getValD data "buy_price" = v := by
    rw [getValD, hv]
    rfl
  have hplt : pyLt v 100 = true := decide_eq_true hlt
  have hne : data.isEmpty = false := isEmpty_false_of_getVal hv
  have hgd2 : getValD data2 "buy_price" = v2 := by
    rw [getValD, hv2]
    rfl
  have hplt2 : pyLt v2 100 = true := decide_eq_true hlt2
  have hne2 : data2.isEmpty = false := isEmpty_false_of_getVal hv2
  have hmfind : List.find? (fun r => decide (r.id = mid)) st2.materials = some m := hm
  have hmm : m ∈ st2.materials := List.mem_of_find?_eq_some hmfind
  have hid0 : m.id = mid :=
    of_decide_eq_true (find?_pred (fun r => decide (r.id = mid)) st2.materials m hmfind)
  have hmema : applyUpd m data2 ∈ st2.materials.map
      (fun r => if r.id = mid then applyUpd r data2 else r) := by
    have hx2 : (if m.id = mid then applyUpd m data2 else m)
        ∈ st2.materials.map (fun r => if r.id = mid then applyUpd r data2 else r) :=
      List.mem_map_of_mem (fun r => if r.id = mid then applyUpd r data2 else r) hmm
    rw [if_pos hid0] at hx2
    exact hx2
  have hida : (applyUpd m data2).id = mid := hid0
  have hbpa : (applyUpd m data2).buy_price = v2 := by
    show updField m.buy_price data2 "buy_price" = v2
    rw [updField, hv2]
    rfl
  have hany : (st2.materials.map
      (fun r => if r.id = mid then applyUpd r data2 else r)).any
      (fun r => (r.id = mid) && pyLt r.buy_price 100) = true := by
    rw [List.any_eq_true]
    exact ⟨applyUpd m data2, hmema, by simp [hida, hbpa, hplt2]⟩
  have hwrite : storeWrite st2 mid data2
      = Except.error (OrmError.validation "Buy price cannot be less than 100") := by
    simp only [storeWrite, hany, if_true]
  refine ⟨?_, ?_, ?_, ?_⟩
  · simp only [create_material, hne, Bool.false_eq_true, if_false]
    split
    · exact ⟨rfl, rfl⟩
    · split_ifs with h1 h2 h3
      · exact ⟨rfl, rfl⟩
      · exact ⟨rfl, rfl⟩
      · exact ⟨rfl, rfl⟩
      · rw [hgd] at h3
        exact absurd hplt h3
      · rw [hgd] at h3
        exact absurd hplt h3
  · intro hnz
    have htr2 : pyTruthy v2 = true := (pyTruthy_num hn2).mpr hnz
    simp only [update_material, hm, hne2, Bool.false_eq_true, if_false]
    split
    · exact ⟨rfl, rfl⟩
    · refine ⟨?_, ?_⟩ <;> simp [hgd2, htr2, hplt2, json_response, derive_status, pyOrNat]
  · intro hz hvalok
    have htrf : pyTruthy v2 = false := by
      cases hx : pyTruthy v2
      · rfl
      · exact absurd hz ((pyTruthy_num hn2).mp hx)
    simp only [update_material, hm, hne2, Bool.false_eq_true, if_false]
    rcases hvp : validate_payload materialModel data2 type_specs with ⟨b, msg⟩
    rw [hvp] at hvalok
    have hb : b = true := hvalok
    subst hb
    constructor
    · intro hsup
      refine ⟨?_, ?_, ?_⟩ <;>
        simp [hgd2, htrf, hsup, json_response, derive_status, pyOrNat]
    · intro hsupf
      refine ⟨?_, ?_, ?_⟩ <;>
        simp [hgd2, htrf, hsupf, hwrite, json_response, derive_status, pyOrNat]
  · simp only [update_material, hm, hne2, Bool.false_eq_true, if_false]
    split
    · exact ⟨rfl, rfl⟩
    · by_cases htr : pyTruthy v2 = true
      · refine ⟨?_, ?_⟩ <;> simp [hgd2, htr, hplt2, json_response, derive_status, pyOrNat]
      · have htrf : pyTruthy v2 = false := by
          cases hx : pyTruthy v2
          · rfl
          · exact absurd hx htr
        by_cases hsup : (pyTruthy (getValD data2 "supplier_id")
            && !supplierResolve st2 (getVal data2 "supplier_id")) = true
        · refine ⟨?_, ?_⟩ <;> simp [hgd2, htrf, hsup, json_response, derive_status, pyOrNat]
        · have hsupf : (pyTruthy (getValD data2 "supplier_id")
              && !supplierResolve st2 (getVal data2 "supplier_id")) = false := by
            cases hx : (pyTruthy (getValD data2 "supplier_id")
                && !supplierResolve st2 (getVal data2 "supplier_id"))
            · rfl
            · exact absurd hx hsup
          refine ⟨?_, ?_⟩ <;>
            simp [hgd2, htrf, hsupf, hwrite, json_response, derive_status, pyOrNat]

theorem buy_price_floor_rejection_witness :
    getVal [("buy_price", PyVal.int 50)] "buy_price" = some (PyVal.int 50)
    ∧ pyToRat (PyVal.int 50) < 100
    ∧ pyToRat (PyVal.int 50) ≠ 0
    ∧ pyToRat (PyVal.int 0) = 0
    ∧ materialSearch sampleStore 1 = some sampleRec
    ∧ ((create_material sampleStore [("buy_price", PyVal.int 50)]).1.status_code = 400
      ∧ (create_material sampleStore [("buy_price", PyVal.int 50)]).2 = sampleStore)
    ∧ ((update_material sampleStore 1 [("buy_price", PyVal.int 50)]).1.status_code = 400
      ∧ (update_material sampleStore 1 [("buy_price", PyVal.int 50)]).2 = sampleStore)
    ∧ ((update_material sampleStore 1
          [("buy_price", PyVal.int 0), ("supplier_id", PyVal.int 9)]).1.status_code = 404
      ∧ (update_material sampleStore 1
          [("buy_price", PyVal.int 0), ("supplier_id", PyVal.int 9)]).1.error
        = some ⟨404, some "Supplier not found"⟩
      ∧ (update_material sampleStore 1
          [("buy_price", PyVal.int 0), ("supplier_id", PyVal.int 9)]).2 = sampleStore)
    ∧ ((update_material sampleStore 1 [("buy_price", PyVal.int 0)]).1.status_code = 400
      ∧ (update_material sampleStore 1 [("buy_price", PyVal.int 0)]).1.error
        = some ⟨400, some "Buy price cannot be less than 100"⟩
      ∧ (update_material sampleStore 1 [("buy_price", PyVal.int 0)]).2 = sampleStore) := by
  have h1 := buy_price_floor_rejection sampleStore [("buy_price", PyVal.int 50)]
    (PyVal.int 50) sampleStore 1 sampleRec [("buy_price", PyVal.int 50)] (PyVal.int 50)
    (by decide) (by decide) (by decide) (by decide) (by decide) (by decide) (by decide)
  have h2 := buy_price_floor_rejection sampleStore [("buy_price", PyVal.int 50)]
    (PyVal.int 50) sampleStore 1 sampleRec
    [("buy_price", PyVal.int 0), ("supplier_id", PyVal.int 9)] (PyVal.int 0)
    (by decide) (by decide) (by decide) (by decide) (by decide) (by decide) (by decide)
  have h3 := buy_price_floor_rejection sampleStore [("buy_price", PyVal.int 50)]
    (PyVal.int 50) sampleStore 1 sampleRec [("buy_price", PyVal.int 0)] (PyVal.int 0)
    (by decide) (by decide) (by decide) (by decide) (by decide) (by decide) (by decide)
  exact ⟨by decide, by decide, by decide, by decide, by decide, h1.1,
    h1.2.1 (by decide),
    (h2.2.2.1 (by decide) (by decide)).1 (by decide),
    (h3.2.2.1 (by decide) (by decide)).2 (by decide)⟩
